import Mathlib

/-!
Shallow embedding of the Komodo file-intake pipeline
(`src/komodo.py`, `src/monitor.py`, `src/PDFBarcodeProcessor.py`).

File contents are modelled as strings; the filesystem is an association
list from path to content.  The external render/decode capability is a
parameter (`Env.pagesOf`) mapping a file's content to the list of
per-page outcomes, and the SHA-256 digest is a parameter (`Env.H`)
mapping content to a hex string, since both are external libraries.
All machine state touched by the pipeline (filesystem, in-memory hash
ledger, persisted ledger file, event log, console output, count of
stabilisation probe opens) is collected in the structure `St`.
Python exceptions are modelled with `Except`, the error value carrying
the state at the point of raise (Python mutations before a raise
persist).
-/

/-- Python `s[a:b]` slicing on strings (never raises, clamps bounds). -/
def pySlice (s : String) (a b : Nat) : String :=
  String.mk ((s.toList.drop a).take (b - a))

/-- Lower-casing, as in Python `str.lower` restricted to ASCII use here. -/
def strLower (s : String) : String :=
  String.mk (s.toList.map Char.toLower)

/-- Python `str.endswith`. -/
def strEnds (s sfx : String) : Bool :=
  List.isSuffixOf sfx.toList s.toList

/-- Python `str.startswith`, used for absolute-path detection in `os.path.join`. -/
def strStarts (s pre : String) : Bool :=
  List.isPrefixOf pre.toList s.toList

/-- POSIX `os.path.join(a, b)` for two components. -/
def pyJoin (a b : String) : String :=
  if strStarts b "/" then b
  else if a = "" then b
  else if strEnds a "/" then a ++ b
  else a ++ "/" ++ b

/-- POSIX `os.path.basename`: the part after the last slash. -/
def basename (p : String) : String :=
  String.mk (p.toList.reverse.takeWhile (fun c => c ≠ '/')).reverse

/-- POSIX `os.path.dirname`: the part before the last slash ("" if none). -/
def dirname (p : String) : String :=
  String.mk ((p.toList.reverse.dropWhile (fun c => c ≠ '/')).drop 1).reverse

/-- The filesystem: an association list from path to file content. -/
abbrev Fs := List (String × String)

/-- Content of the file at `p`, `none` when no such file exists. -/
def lookupFs : Fs → String → Option String
  | [], _ => none
  | (k, v) :: rest, p => if k = p then some v else lookupFs rest p

/-- Remove the entry at path `p` (used by rename/move and dict deletion). -/
def eraseFs : Fs → String → Fs
  | [], _ => []
  | (k, v) :: rest, p => if k = p then eraseFs rest p else (k, v) :: eraseFs rest p

/-- Create or overwrite the file (or mapping entry) at `p` with `v`. -/
def setFs (m : Fs) (p v : String) : Fs :=
  (p, v) :: eraseFs m p

/-- Python `os.path.exists`. -/
def existsFs (m : Fs) (p : String) : Bool :=
  (lookupFs m p).isSome

/-- `os.rename src dst`: move the content of `src` to `dst` (callers in the
source only invoke it when `src` exists). -/
def renameFs (m : Fs) (src dst : String) : Fs :=
  match lookupFs m src with
  | some c => setFs (eraseFs m src) dst c
  | none => m

/-- `shutil.move src dst`: a rename, a no-op when source and destination
coincide (POSIX `rename` onto the same path succeeds without change). -/
def moveFs (m : Fs) (src dst : String) : Fs :=
  if src = dst then m else renameFs m src dst

/-- Outcome of rendering+decoding one PDF page: either the page raised
during rendering/decoding, or it produced a (possibly empty) list of
decoded barcode payloads. -/
inductive PageOut where
  | perr (msg : String)
  | pok (bars : List String)
deriving DecidableEq, Repr

/-- External capabilities and fault injection for the pipeline.
`pagesOf` composes the external `fitz` page rendering with `pyzbar.decode`
per page of a document's content; `H` is the external SHA-256 hex digest of
a content; `saveOk` is whether writing the hash-store JSON file succeeds. -/
structure Env where
  pagesOf : String → List PageOut
  H : String → String
  saveOk : Bool

/-- All state the pipeline touches: the filesystem, the in-memory hash
ledger (`self.hashes`), the persisted ledger file (`none` = absent), the
event-log file, console output, and the number of stabilisation probe
opens performed (model instrumentation for the Stabilizer contract). -/
structure St where
  fs : Fs
  hashes : List (String × String)
  stored : Option (List (String × String))
  log : List String
  console : List String
  probes : Nat
deriving DecidableEq, Repr

/-- A watchdog filesystem event (the fields `on_created` consults). -/
structure Event where
  is_directory : Bool
  src_path : String
deriving DecidableEq, Repr

/-- `FileChangeLogger.should_ignore` (komodo.py lines 138-141): ignore
paths ending in `.tmp`. -/
def should_ignore (file_path : String) : Bool :=
  strEnds file_path ".tmp"

/-- `FileChangeLogger.parse_barcode` (komodo.py lines 174-186).  Python
slicing never raises, so the `except` branch is dead: the function always
returns the pair `(file_name[6:10], "20" + file_name[0:2] + "-" + file_name[2:4])`.
Short names yield empty (falsy) components rather than `None`. -/
def parse_barcode (file_name : String) : String × String :=
  let date_part := pySlice file_name 0 6
  let form_id := pySlice file_name 6 10
  let year := "20" ++ pySlice date_part 0 2
  let month := pySlice date_part 2 4
  (form_id, year ++ "-" ++ month)

/-- The page loop of `FileChangeLogger.extract_barcodes` (komodo.py lines
67-78): scan pages in order; a raising page contributes an error message
and is skipped; the first page whose decode list is non-empty returns its
first payload (even when that payload is the empty string); `none` when
all pages are exhausted.  Also returns the console messages printed. -/
def extractLoop : List PageOut → Option String × List String
  | [] => (none, [])
  | PageOut.perr e :: rest =>
      ((extractLoop rest).1, ("Error processing page: " ++ e) :: (extractLoop rest).2)
  | PageOut.pok [] :: rest => extractLoop rest
  | PageOut.pok (b :: _) :: _ => (some b, ["Found barcode " ++ b])

/-- `FileChangeLogger.extract_barcodes` (komodo.py lines 64-78):
`fitz.open` raises when the file cannot be opened; otherwise run the page
loop on the document's pages. -/
def extract_barcodes (env : Env) (m : Fs) (pdf_path : String) :
    Except String (Option String × List String) :=
  match lookupFs m pdf_path with
  | none => Except.error ("cannot open " ++ pdf_path)
  | some c => Except.ok (extractLoop (env.pagesOf c))

/-- `FileChangeLogger.calculate_file_hash` (komodo.py lines 43-54): SHA-256
of the file's content, `None` when the file cannot be opened (the internal
`try` converts any error to `None`). -/
def calculate_file_hash (env : Env) (m : Fs) (file_path : String) : Option String :=
  (lookupFs m file_path).map env.H

/-- `FileChangeLogger.rename_pdf` (komodo.py lines 80-94): extract a
barcode; when truthy, compute `dirname(path)/<token>.pdf`; skip (returning
the original path) when that name exists, otherwise `os.rename` to it;
when no truthy barcode, return the original path.  Result: the new
filesystem, the path the file now lives at, and the console messages. -/
def rename_pdf (env : Env) (m : Fs) (pdf_path : String) :
    Except String (Fs × String × List String) :=
  match extract_barcodes env m pdf_path with
  | Except.error e => Except.error e
  | Except.ok (bv?, msgs) =>
    match bv? with
    | some bv =>
      if bv = "" then
        Except.ok (m, pdf_path, msgs ++ ["No barcode found in the file."])
      else
        let new_name := bv ++ ".pdf"
        let new_path := pyJoin (dirname pdf_path) new_name
        if existsFs m new_path then
          Except.ok (m, pdf_path,
            msgs ++ ["File with name " ++ new_name ++ " already exists. Skipping."])
        else
          Except.ok (renameFs m pdf_path new_path, new_path,
            msgs ++ ["File renamed to: " ++ new_name])
    | none => Except.ok (m, pdf_path, msgs ++ ["No barcode found in the file."])

/-- `FileChangeLogger.log_change` (komodo.py lines 35-41): append the
message to the log file and echo it to the console. -/
def log_change (st : St) (message : String) : St :=
  { st with log := st.log ++ [message], console := st.console ++ [message] }

/-- `FileChangeLogger.save_hash_store` (komodo.py lines 30-33): rewrite the
hash-store file wholesale from the in-memory mapping; raises when the
store is unwritable (fault injected via `Env.saveOk`). -/
def save_hash_store_step (env : Env) (st : St) : Except (String × St) St :=
  if env.saveOk then Except.ok { st with stored := some st.hashes }
  else Except.error ("cannot write hash store", st)

/-- `FileChangeLogger.load_hash_store` (komodo.py lines 23-28): read the
persisted mapping, empty when the store file is absent. -/
def load_hash_store (stored : Option (List (String × String))) :
    List (String × String) :=
  stored.getD []

/-- `FileChangeLogger.organize_file` (komodo.py lines 155-172): parse the
basename; when both parsed components are truthy, `makedirs` the
destination directory, `shutil.move` the file to `./<form_id>/<month>/<name>`
and log the move, returning the destination; otherwise log the failure and
return `none`. -/
def organize_file (st : St) (src_path : String) : St × Option String :=
  let file_name := basename src_path
  let pb := parse_barcode file_name
  if pb.1 ≠ "" ∧ pb.2 ≠ "" then
    let dest_dir := pyJoin (pyJoin "." pb.1) pb.2
    let dest_path := pyJoin dest_dir file_name
    (log_change { st with fs := moveFs st.fs src_path dest_path }
       ("File moved to: " ++ dest_path), some dest_path)
  else
    (log_change st ("Failed to organize file: " ++ src_path), none)

/-- The stabilisation loop of `FileChangeLogger.wait_for_file_stable`
(komodo.py lines 143-153), with the probe outcome for attempt `k` given by
`probe k`: returns whether an open succeeded together with the number of
probe opens performed. -/
def waitFrom (probe : Nat → Bool) : Nat → Nat → Bool × Nat
  | _, 0 => (false, 0)
  | k, n + 1 =>
    if probe k then (true, 1)
    else ((waitFrom probe (k + 1) n).1, (waitFrom probe (k + 1) n).2 + 1)

/-- `FileChangeLogger.wait_for_file_stable` (komodo.py lines 143-153):
probe from attempt 0 up to `max_attempts` times. -/
def wait_for_file_stable (probe : Nat → Bool) (max_attempts : Nat) : Bool × Nat :=
  waitFrom probe 0 max_attempts

/-- The body of the `try` block in the live `FileChangeLogger.on_created`
(komodo.py lines 116-124): rename, hash the renamed path, organize, and
when the hash succeeded record it in the ledger under the renamed path,
persist the store, and log.  Errors carry the state at the raise point. -/
def onCreatedBody (env : Env) (st : St) (src : String) : Except (String × St) St :=
  match rename_pdf env st.fs src with
  | Except.error e => Except.error (e, st)
  | Except.ok (fs1, renamed_path, msgs) =>
    let st1 : St := { st with fs := fs1, console := st.console ++ msgs }
    let file_hash := calculate_file_hash env st1.fs renamed_path
    let st2 := (organize_file st1 renamed_path).1
    match file_hash with
    | some h =>
      let st3 : St := { st2 with hashes := setFs st2.hashes renamed_path h }
      match save_hash_store_step env st3 with
      | Except.error es => Except.error es
      | Except.ok st4 =>
        Except.ok (log_change st4
          ("File created and renamed: " ++ renamed_path ++ " (Hash: " ++ h ++ ")"))
    | none => Except.ok st2

/-- The live `FileChangeLogger.on_created` (komodo.py lines 105-126; the
earlier definition at lines 96-103 is shadowed by this one): skip
directories and ignored paths, wait for stability (bailing out with a
console message when unstable), and for `.pdf` paths run the pipeline body
with every exception caught and turned into a console message. -/
def on_created (env : Env) (probe : Nat → Bool) (st : St) (ev : Event) : St :=
  if !ev.is_directory && !should_ignore ev.src_path then
    let w := wait_for_file_stable probe 5
    let stw : St := { st with probes := st.probes + w.2 }
    if w.1 = false then
      { stw with console := stw.console ++ ["File is not ready: " ++ ev.src_path] }
    else if strEnds (strLower ev.src_path) ".pdf" then
      match onCreatedBody env stw ev.src_path with
      | Except.ok st' => st'
      | Except.error (e, st') =>
        { st' with console := st'.console ++
            ["Error processing file: " ++ ev.src_path ++ ": " ++ e] }
    else stw
  else st

/-- `FileChangeLogger.on_created` of monitor.py (lines 53-59): hash the
created file and, when hashing succeeded, record and persist it and log —
with no `try` around the handler, so a persistence failure propagates. -/
def monitor_on_created (env : Env) (st : St) (ev : Event) : Except (String × St) St :=
  if !ev.is_directory && !should_ignore ev.src_path then
    match calculate_file_hash env st.fs ev.src_path with
    | some h =>
      let st1 : St := { st with hashes := setFs st.hashes ev.src_path h }
      match save_hash_store_step env st1 with
      | Except.error es => Except.error es
      | Except.ok st2 =>
        Except.ok (log_change st2 ("File created: " ++ ev.src_path ++ " (Hash: " ++ h ++ ")"))
    | none => Except.ok st
  else Except.ok st

/-- The Hash Ledger `record` operation: the inline sequence of
`calculate_file_hash`, ledger upsert and `save_hash_store` used by the
event handlers (komodo.py lines 118, 121-123; monitor.py lines 55-58),
packaged as the spec's `record(path) -> optional digest`.  `none` when the
digest could not be computed or the store could not be written. -/
def record (env : Env) (st : St) (path : String) : Option (St × String) :=
  match calculate_file_hash env st.fs path with
  | some h =>
    let st1 : St := { st with hashes := setFs st.hashes path h }
    match save_hash_store_step env st1 with
    | Except.ok st2 => some (st2, h)
    | Except.error _ => none
  | none => none

/-! ### Concrete fixtures used by counterexamples and witnesses -/

/-- Environment whose decode capability finds `240115FRM1JD` on page 0 of
every document and whose digest of content `c` is `"h" ++ c`. -/
def envA : Env :=
  { pagesOf := fun _ => [PageOut.pok ["240115FRM1JD"]],
    H := fun c => "h" ++ c, saveOk := true }

/-- Environment with an unwritable hash store. -/
def envBad : Env :=
  { pagesOf := fun _ => [PageOut.pok ["240115FRM1JD"]],
    H := fun c => "h" ++ c, saveOk := false }

/-- A probe for which every open attempt succeeds immediately. -/
def probeT : Nat → Bool := fun _ => true

/-- A freshly delivered PDF in the watched `inbox` directory. -/
def stA : St :=
  { fs := [("inbox/doc1.pdf", "CONTENT")], hashes := [], stored := none,
    log := [], console := [], probes := 0 }

/-- Creation event for the fresh PDF of `stA`. -/
def evA : Event := { is_directory := false, src_path := "inbox/doc1.pdf" }

/-! ### Helper lemmas about the ledger association list -/

theorem lookupFs_setFs_self (m : Fs) (p v : String) :
    lookupFs (setFs m p v) p = some v := by
  simp [setFs, lookupFs]

theorem eraseFs_eraseFs (m : Fs) (p : String) :
    eraseFs (eraseFs m p) p = eraseFs m p := by
  induction m with
  | nil => simp [eraseFs]
  | cons kv rest ih =>
    obtain ⟨k, v⟩ := kv
    by_cases h : k = p
    · simp [eraseFs, h, ih]
    · simp [eraseFs, h, ih]

theorem setFs_setFs (m : Fs) (p v : String) :
    setFs (setFs m p v) p v = setFs m p v := by
  simp [setFs, eraseFs, eraseFs_eraseFs]

/-! ### Helper lemmas about the path planner and the organizer -/

/-- The month component produced by `parse_barcode` always starts with
`"20"`, hence is never the empty (falsy) string. -/
theorem parse_barcode_snd_ne (s : String) : (parse_barcode s).2 ≠ "" := by
  simp only [parse_barcode]
  intro h
  have hlen := congrArg String.length h
  simp [String.length_append] at hlen
  exact absurd hlen.1.1.1 (by decide)

/-- Python slicing `[6:10]` of a string of length at most 6 is empty. -/
theorem pySlice_six_ten_nil (s : String) (h : s.length ≤ 6) :
    pySlice s 6 10 = "" := by
  have h6 : s.data.length ≤ 6 := h
  show String.mk ((s.data.drop 6).take 4) = ""
  rw [List.drop_eq_nil_of_le h6]
  rfl

/-- `organize_file` never touches the in-memory ledger. -/
theorem organize_file_hashes (st : St) (src : String) :
    (organize_file st src).1.hashes = st.hashes := by
  simp only [organize_file]
  split <;> simp [log_change]

/-- `organize_file` never touches the persisted ledger file. -/
theorem organize_file_stored (st : St) (src : String) :
    (organize_file st src).1.stored = st.stored := by
  simp only [organize_file]
  split <;> simp [log_change]

/-! ### Helper lemmas about the stabilisation loop -/

theorem waitFrom_count_le (probe : Nat → Bool) :
    ∀ (n k : Nat), (waitFrom probe k n).2 ≤ n := by
  intro n
  induction n with
  | zero => intro k; simp [waitFrom]
  | succ n ih =>
    intro k
    by_cases h : probe k
    · simp [waitFrom, h]
    · have := ih (k + 1)
      simp [waitFrom, h]
      omega

theorem waitFrom_true_iff (probe : Nat → Bool) :
    ∀ (n k : Nat), (waitFrom probe k n).1 = true ↔ ∃ i, i < n ∧ probe (k + i) = true := by
  intro n
  induction n with
  | zero => intro k; simp [waitFrom]
  | succ n ih =>
    intro k
    by_cases h : probe k
    · simp only [waitFrom, h, if_true]
      constructor
      · intro _; exact ⟨0, by omega, by simpa using h⟩
      · intro _; trivial
    · simp only [waitFrom, h, if_false]
      constructor
      · intro ht
        obtain ⟨i, hi, hp⟩ := (ih (k + 1)).mp ht
        refine ⟨i + 1, by omega, ?_⟩
        have harith : k + (i + 1) = k + 1 + i := by omega
        rwa [harith]
      · rintro ⟨i, hi, hp⟩
        cases i with
        | zero => simp at hp; exact absurd hp h
        | succ j =>
          apply (ih (k + 1)).mpr
          refine ⟨j, by omega, ?_⟩
          have harith : k + 1 + j = k + (j + 1) := by omega
          rwa [harith]

theorem waitFrom_first (probe : Nat → Bool) :
    ∀ (n k i : Nat), i < n → probe (k + i) = true →
      (∀ j, j < i → probe (k + j) = false) → waitFrom probe k n = (true, i + 1) := by
  intro n
  induction n with
  | zero => intro k i hi; omega
  | succ n ih =>
    intro k i hi hp hbefore
    cases i with
    | zero =>
      have hk : probe k = true := by simpa using hp
      simp [waitFrom, hk]
    | succ i' =>
      have hk : probe k = false := by
        have := hbefore 0 (by omega)
        simpa using this
      have hrec : waitFrom probe (k + 1) n = (true, i' + 1) := by
        apply ih (k + 1) i' (by omega)
        · have harith : k + 1 + i' = k + (i' + 1) := by omega
          rwa [harith]
        · intro j hj
          have harith : k + 1 + j = k + (j + 1) := by omega
          rw [harith]
          exact hbefore (j + 1) (by omega)
      simp [waitFrom, hk, hrec]

theorem waitFrom_allfail (probe : Nat → Bool) :
    ∀ (n k : Nat), (∀ i, i < n → probe (k + i) = false) → waitFrom probe k n = (false, n) := by
  intro n
  induction n with
  | zero => intro k _; simp [waitFrom]
  | succ n ih =>
    intro k hall
    have hk : probe k = false := by simpa using hall 0 (by omega)
    have hrec : waitFrom probe (k + 1) n = (false, n) := by
      apply ih (k + 1)
      intro i hi
      have harith : k + 1 + i = k + (i + 1) := by omega
      rw [harith]
      exact hall (i + 1) (by omega)
    simp [waitFrom, hk, hrec]

/-- At least one probe open is performed whenever `max_attempts` is positive. -/
theorem wait_count_pos (probe : Nat → Bool) (n : Nat) (h : 0 < n) :
    1 ≤ (wait_for_file_stable probe n).2 := by
  cases n with
  | zero => omega
  | succ n =>
    by_cases hp : probe 0
    · simp [wait_for_file_stable, waitFrom, hp]
    · simp [wait_for_file_stable, waitFrom, hp]

/-! ### Helper lemmas about the pipeline body and the event handler -/

/-- Running the `try`-block body on a source file with a truthy extracted
token whose canonical name is not yet taken: the body succeeds, and the
ledger upsert (and the persisted store) key is the renamed path
`dirname(src)/<token>.pdf`, with the digest taken at that path before the
organize move. -/
theorem onCreatedBody_fresh (env : Env) (st : St) (src c token : String)
    (hlook : lookupFs st.fs src = some c)
    (hex : (extractLoop (env.pagesOf c)).1 = some token)
    (htok : token ≠ "")
    (hfresh : existsFs st.fs (pyJoin (dirname src) (token ++ ".pdf")) = false)
    (hsave : env.saveOk = true) :
    ∃ stf : St, onCreatedBody env st src = Except.ok stf ∧
      stf.hashes = setFs st.hashes (pyJoin (dirname src) (token ++ ".pdf")) (env.H c) ∧
      stf.stored = some (setFs st.hashes (pyJoin (dirname src) (token ++ ".pdf")) (env.H c)) := by
  rcases hE : extractLoop (env.pagesOf c) with ⟨bv, msgs⟩
  rw [hE] at hex
  simp only at hex
  subst hex
  simp only [onCreatedBody, rename_pdf, extract_barcodes, hlook, hE]
  rw [if_neg htok]
  simp only [hfresh]
  simp only [Bool.false_eq_true, if_false]
  simp only [renameFs, hlook, calculate_file_hash, lookupFs_setFs_self, Option.map_some']
  simp only [save_hash_store_step, hsave, if_true]
  refine ⟨_, rfl, ?_, ?_⟩
  · simp [log_change, organize_file_hashes]
  · simp [log_change, organize_file_hashes, organize_file_stored]

/-- Running the `try`-block body on a file that already sits at its
organized destination (its name is its own token's canonical name and its
directory is the planned destination): rename skips because the name
exists, organize moves the file onto itself (a no-op), and the body
records the digest of the unchanged content under the same path. -/
theorem onCreatedBody_organized (env : Env) (st : St) (p c token : String)
    (hlook : lookupFs st.fs p = some c)
    (hex : (extractLoop (env.pagesOf c)).1 = some token)
    (htok : token ≠ "")
    (hself : pyJoin (dirname p) (token ++ ".pdf") = p)
    (hbase : basename p = token ++ ".pdf")
    (hform : (parse_barcode (token ++ ".pdf")).1 ≠ "")
    (hdest : pyJoin (pyJoin (pyJoin "." (parse_barcode (token ++ ".pdf")).1)
               (parse_barcode (token ++ ".pdf")).2) (token ++ ".pdf") = p)
    (hsave : env.saveOk = true) :
    ∃ stf : St, onCreatedBody env st p = Except.ok stf ∧
      stf.fs = st.fs ∧ stf.hashes = setFs st.hashes p (env.H c) := by
  rcases hE : extractLoop (env.pagesOf c) with ⟨bv, msgs⟩
  rw [hE] at hex
  simp only at hex
  subst hex
  simp only [onCreatedBody, rename_pdf, extract_barcodes, hlook, hE]
  rw [if_neg htok]
  rw [hself]
  have hexists : existsFs st.fs p = true := by simp [existsFs, hlook]
  simp only [hexists, if_true]
  simp only [calculate_file_hash, hlook, Option.map_some']
  simp only [organize_file, hbase]
  rw [if_pos ⟨hform, parse_barcode_snd_ne (token ++ ".pdf")⟩]
  rw [hdest]
  simp only [moveFs, if_pos rfl]
  simp only [save_hash_store_step, hsave, if_true]
  refine ⟨_, rfl, ?_, ?_⟩
  · simp [log_change]
  · simp [log_change]

/-- When an eligible `.pdf` creation event passes stabilisation and the
body completes normally, the handler returns the body's final state. -/
theorem on_created_run (env : Env) (probe : Nat → Bool) (st : St) (ev : Event) (stf : St)
    (hdir : ev.is_directory = false)
    (hign : should_ignore ev.src_path = false)
    (hstable : (wait_for_file_stable probe 5).1 = true)
    (hpdf : strEnds (strLower ev.src_path) ".pdf" = true)
    (hbody : onCreatedBody env { st with probes := st.probes + (wait_for_file_stable probe 5).2 }
               ev.src_path = Except.ok stf) :
    on_created env probe st ev = stf := by
  simp only [on_created, hdir, hign, Bool.not_false, Bool.and_self, if_true]
  rw [hstable]
  simp only [Bool.true_eq_false, if_false]
  rw [hpdf]
  simp only [if_true, hbody]

/-- First hit of the page scan: the first page whose decode list is
non-empty contributes its first payload. -/
def pageFirst : PageOut → Option String
  | PageOut.perr _ => none
  | PageOut.pok [] => none
  | PageOut.pok (b :: _) => some b

/-- Composing Python slices: `(s[:6])[0:2] = s[0:2]`. -/
theorem pySlice_comp1 (s : String) : pySlice (pySlice s 0 6) 0 2 = pySlice s 0 2 := by
  show String.mk (List.take 2 (List.take 6 s.data)) = String.mk (List.take 2 s.data)
  exact congrArg String.mk (by simp [List.take_take])

/-- Composing Python slices: `(s[:6])[2:4] = s[2:4]`. -/
theorem pySlice_comp2 (s : String) : pySlice (pySlice s 0 6) 2 4 = pySlice s 2 4 := by
  show String.mk (List.take 2 (List.drop 2 (List.take 6 s.data))) =
       String.mk (List.take 2 (List.drop 2 s.data))
  exact congrArg String.mk (by rw [List.drop_take]; simp [List.take_take])

/-! ### Further fixtures -/

/-- The state after the first full pipeline run of `stA`/`evA`: the file
already sits at its organized destination. -/
def stOrg : St :=
  { fs := [("./FRM1/2024-01/240115FRM1JD.pdf", "CONTENT")], hashes := [], stored := none,
    log := [], console := [], probes := 0 }

/-- Re-delivered creation event for the already-organized file of `stOrg`. -/
def evOrg : Event := { is_directory := false, src_path := "./FRM1/2024-01/240115FRM1JD.pdf" }

/-- A delivered file whose basename has fewer than 10 characters. -/
def stC3 : St :=
  { fs := [("dir/123456A", "DOC"), ("dir/1234", "Z")], hashes := [], stored := none,
    log := [], console := [], probes := 0 }

/-- A delivered file named like the specification scenario token. -/
def stC4 : St :=
  { fs := [("240115FRM1JD.pdf", "PDFDATA")], hashes := [], stored := none,
    log := [], console := [], probes := 0 }

/-- A filesystem where the canonical name for the extracted token is taken. -/
def fsC5 : Fs :=
  [("inbox/doc1.pdf", "CONTENT"), ("inbox/240115FRM1JD.pdf", "OTHER")]

/-- The expected post-`record` state for the ledger round-trip witness. -/
def stRec : St :=
  { fs := [("inbox/doc1.pdf", "CONTENT")], hashes := [("inbox/doc1.pdf", "hCONTENT")],
    stored := some [("inbox/doc1.pdf", "hCONTENT")], log := [], console := [], probes := 0 }

/-- State for the monitor.py persistence-failure scenario. -/
def stM : St :=
  { fs := [("inbox/a.pdf", "x")], hashes := [], stored := none,
    log := [], console := [], probes := 0 }

/-- Creation event for the monitor.py persistence-failure scenario. -/
def evM : Event := { is_directory := false, src_path := "inbox/a.pdf" }

/-- State with an empty filesystem (the created file vanished before
processing). -/
def stE : St :=
  { fs := [], hashes := [], stored := none, log := [], console := [], probes := 0 }

/-- Creation event for a path that no longer exists. -/
def evE : Event := { is_directory := false, src_path := "x.pdf" }

/-- Creation event for a non-PDF, non-ignored path. -/
def evTxt : Event := { is_directory := false, src_path := "inbox/notes.txt" }

/-! ### Claim theorems -/

/-- C1 (counterexample): on a successful full pipeline run (stabilize,
rename, organize, hash) the ledger key is NOT the file's final resting
path.  Concretely, for the fresh delivery `inbox/doc1.pdf` with token
`240115FRM1JD`, the file ends at `./FRM1/2024-01/240115FRM1JD.pdf`, but
the ledger maps the stale pre-organize path `inbox/240115FRM1JD.pdf` (at
which no file exists any more) and has no entry for the destination. -/
theorem c1_counterexample :
    lookupFs (on_created envA probeT stA evA).fs "./FRM1/2024-01/240115FRM1JD.pdf" =
      some "CONTENT" ∧
    lookupFs (on_created envA probeT stA evA).hashes "./FRM1/2024-01/240115FRM1JD.pdf" =
      none ∧
    lookupFs (on_created envA probeT stA evA).hashes "inbox/240115FRM1JD.pdf" =
      some "hCONTENT" ∧
    lookupFs (on_created envA probeT stA evA).fs "inbox/240115FRM1JD.pdf" = none := by
  decide

/-- C1 (amended): after a successful pipeline run on a created PDF, the
Hash Ledger upserts the mapping under the RENAMED (pre-organize) path
`dirname(src)/<token>.pdf`, with the digest computed at that path before
the organize move (so the key named a file that existed at the time of
the hash computation, but not the final resting path), and the store is
persisted with exactly that mapping. -/
theorem c1_ledger_key_is_renamed_path (env : Env) (probe : Nat → Bool) (st : St)
    (ev : Event) (c token : String)
    (hdir : ev.is_directory = false)
    (hign : should_ignore ev.src_path = false)
    (hstable : (wait_for_file_stable probe 5).1 = true)
    (hpdf : strEnds (strLower ev.src_path) ".pdf" = true)
    (hlook : lookupFs st.fs ev.src_path = some c)
    (hex : (extractLoop (env.pagesOf c)).1 = some token)
    (htok : token ≠ "")
    (hfresh : existsFs st.fs (pyJoin (dirname ev.src_path) (token ++ ".pdf")) = false)
    (hsave : env.saveOk = true) :
    (on_created env probe st ev).hashes =
      setFs st.hashes (pyJoin (dirname ev.src_path) (token ++ ".pdf")) (env.H c) ∧
    (on_created env probe st ev).stored =
      some (setFs st.hashes (pyJoin (dirname ev.src_path) (token ++ ".pdf")) (env.H c)) := by
  obtain ⟨stf, hb, hh, hs⟩ :=
    onCreatedBody_fresh env { st with probes := st.probes + (wait_for_file_stable probe 5).2 }
      ev.src_path c token hlook hex htok hfresh hsave
  rw [on_created_run env probe st ev stf hdir hign hstable hpdf hb]
  exact ⟨hh, hs⟩

/-- C1 (witness): the amended theorem applied to the concrete fresh
delivery `inbox/doc1.pdf` with token `240115FRM1JD`. -/
theorem c1_ledger_key_is_renamed_path_witness :
    (on_created envA probeT stA evA).hashes =
      setFs stA.hashes (pyJoin (dirname evA.src_path) ("240115FRM1JD" ++ ".pdf"))
        (envA.H "CONTENT") ∧
    (on_created envA probeT stA evA).stored =
      some (setFs stA.hashes (pyJoin (dirname evA.src_path) ("240115FRM1JD" ++ ".pdf"))
        (envA.H "CONTENT")) :=
  c1_ledger_key_is_renamed_path envA probeT stA evA "CONTENT" "240115FRM1JD"
    (by decide) (by decide) (by decide) (by decide) (by decide) (by decide)
    (by decide) (by decide) (by decide)

/-- C2: redelivering the creation event for a file that already sits at
its organized destination leaves the filesystem unchanged (no overwrite,
no duplicate of the destination file), records for it the digest of its
unchanged content, and a further redelivery changes neither the
filesystem nor the ledger (the same digest stays recorded). -/
theorem c2_redelivery_idempotent (env : Env) (probe : Nat → Bool) (st : St)
    (ev : Event) (c token : String)
    (hdir : ev.is_directory = false)
    (hign : should_ignore ev.src_path = false)
    (hstable : (wait_for_file_stable probe 5).1 = true)
    (hpdf : strEnds (strLower ev.src_path) ".pdf" = true)
    (hlook : lookupFs st.fs ev.src_path = some c)
    (hex : (extractLoop (env.pagesOf c)).1 = some token)
    (htok : token ≠ "")
    (hself : pyJoin (dirname ev.src_path) (token ++ ".pdf") = ev.src_path)
    (hbase : basename ev.src_path = token ++ ".pdf")
    (hform : (parse_barcode (token ++ ".pdf")).1 ≠ "")
    (hdest : pyJoin (pyJoin (pyJoin "." (parse_barcode (token ++ ".pdf")).1)
               (parse_barcode (token ++ ".pdf")).2) (token ++ ".pdf") = ev.src_path)
    (hsave : env.saveOk = true) :
    (on_created env probe st ev).fs = st.fs ∧
    (on_created env probe st ev).hashes = setFs st.hashes ev.src_path (env.H c) ∧
    (on_created env probe (on_created env probe st ev) ev).fs =
      (on_created env probe st ev).fs ∧
    (on_created env probe (on_created env probe st ev) ev).hashes =
      (on_created env probe st ev).hashes := by
  obtain ⟨stf, hb, hfs, hh⟩ :=
    onCreatedBody_organized env
      { st with probes := st.probes + (wait_for_file_stable probe 5).2 }
      ev.src_path c token hlook hex htok hself hbase hform hdest hsave
  have h1 := on_created_run env probe st ev stf hdir hign hstable hpdf hb
  have hfs' : stf.fs = st.fs := hfs
  have hlook2 : lookupFs stf.fs ev.src_path = some c := by rw [hfs']; exact hlook
  obtain ⟨stf2, hb2, hfs2, hh2⟩ :=
    onCreatedBody_organized env
      { stf with probes := stf.probes + (wait_for_file_stable probe 5).2 }
      ev.src_path c token hlook2 hex htok hself hbase hform hdest hsave
  have h2 := on_created_run env probe stf ev stf2 hdir hign hstable hpdf hb2
  rw [h1, h2]
  refine ⟨hfs', hh, hfs2, ?_⟩
  have hh2' : stf2.hashes = setFs stf.hashes ev.src_path (env.H c) := hh2
  have hh' : stf.hashes = setFs st.hashes ev.src_path (env.H c) := hh
  rw [hh2', hh', setFs_setFs]

/-- C2 (witness): the theorem applied to the already-organized file
`./FRM1/2024-01/240115FRM1JD.pdf`. -/
theorem c2_redelivery_idempotent_witness :
    (on_created envA probeT stOrg evOrg).fs = stOrg.fs ∧
    (on_created envA probeT stOrg evOrg).hashes =
      setFs stOrg.hashes evOrg.src_path (envA.H "CONTENT") ∧
    (on_created envA probeT (on_created envA probeT stOrg evOrg) evOrg).fs =
      (on_created envA probeT stOrg evOrg).fs ∧
    (on_created envA probeT (on_created envA probeT stOrg evOrg) evOrg).hashes =
      (on_created envA probeT stOrg evOrg).hashes :=
  c2_redelivery_idempotent envA probeT stOrg evOrg "CONTENT" "240115FRM1JD"
    (by decide) (by decide) (by decide) (by decide) (by decide) (by decide)
    (by decide) (by decide) (by decide) (by decide) (by decide) (by decide)

/-- C3 (counterexample): for the filename `123456A` — 7 characters, so of
length strictly less than 10 — the path planner does NOT return "none":
it returns the truthy pair `("A", "2012-34")`, and organization does not
fail cleanly but proceeds, moving the file to `./A/2012-34/123456A`. -/
theorem c3_counterexample :
    ("123456A".length < 10) ∧
    parse_barcode "123456A" = ("A", "2012-34") ∧
    (organize_file stC3 "dir/123456A").2 = some "./A/2012-34/123456A" ∧
    lookupFs (organize_file stC3 "dir/123456A").1.fs "./A/2012-34/123456A" = some "DOC" := by
  decide

/-- C3 (amended): `parse_barcode` is a total function (it never throws:
the `except` branch is unreachable because Python slicing never raises)
and it never returns `None`; organization fails cleanly exactly for
basenames of at most 6 characters, for which the parsed `form_id` is the
empty (falsy) string: no move is performed, no digest is touched, the
failure is logged, and `organize_file` reports `none`.  (For basenames of
length 7 to 9 the planner still returns a truthy pair and organization
proceeds, as the counterexample shows.) -/
theorem c3_short_basename_fails_cleanly (st : St) (src : String)
    (h : (basename src).length ≤ 6) :
    (parse_barcode (basename src)).1 = "" ∧
    (organize_file st src).2 = none ∧
    (organize_file st src).1.fs = st.fs ∧
    (organize_file st src).1.hashes = st.hashes ∧
    (organize_file st src).1.log = st.log ++ ["Failed to organize file: " ++ src] := by
  have hform : (parse_barcode (basename src)).1 = "" := by
    simp only [parse_barcode]
    exact pySlice_six_ten_nil _ h
  have hcond : ¬((parse_barcode (basename src)).1 ≠ "" ∧
      (parse_barcode (basename src)).2 ≠ "") := fun hcon => hcon.1 hform
  refine ⟨hform, ?_, ?_, ?_, ?_⟩ <;>
    simp [organize_file, if_neg hcond, log_change]

/-- C3 (witness): the amended theorem at the 4-character basename
`dir/1234`. -/
theorem c3_short_basename_fails_cleanly_witness :
    (parse_barcode (basename "dir/1234")).1 = "" ∧
    (organize_file stC3 "dir/1234").2 = none ∧
    (organize_file stC3 "dir/1234").1.fs = stC3.fs ∧
    (organize_file stC3 "dir/1234").1.hashes = stC3.hashes ∧
    (organize_file stC3 "dir/1234").1.log =
      stC3.log ++ ["Failed to organize file: " ++ "dir/1234"] :=
  c3_short_basename_fails_cleanly stC3 "dir/1234" (by decide)

/-- C4: for every token of length at least 10 the path planner is a pure
function of its input yielding `form_id = chars[6:10]` and
`year_month = "20" ++ chars[0:2] ++ "-" ++ chars[2:4]`; for the scenario
filename `240115FRM1JD.pdf` it yields `("FRM1", "2024-01")` and the
organizer's computed destination is `./FRM1/2024-01/240115FRM1JD.pdf`
(the repository's hard-coded root is `.`), where the file indeed ends up. -/
theorem c4_path_planner (name : String) (_h : 10 ≤ name.length) :
    parse_barcode name =
      (pySlice name 6 10, "20" ++ pySlice name 0 2 ++ "-" ++ pySlice name 2 4) ∧
    parse_barcode "240115FRM1JD.pdf" = ("FRM1", "2024-01") ∧
    (organize_file stC4 "240115FRM1JD.pdf").2 = some "./FRM1/2024-01/240115FRM1JD.pdf" ∧
    lookupFs (organize_file stC4 "240115FRM1JD.pdf").1.fs
      "./FRM1/2024-01/240115FRM1JD.pdf" = some "PDFDATA" := by
  refine ⟨?_, by decide, by decide, by decide⟩
  simp only [parse_barcode]
  rw [pySlice_comp1, pySlice_comp2]

/-- C4 (witness): the theorem at the 16-character scenario filename. -/
theorem c4_path_planner_witness :
    parse_barcode "240115FRM1JD.pdf" =
      (pySlice "240115FRM1JD.pdf" 6 10,
        "20" ++ pySlice "240115FRM1JD.pdf" 0 2 ++ "-" ++ pySlice "240115FRM1JD.pdf" 2 4) ∧
    parse_barcode "240115FRM1JD.pdf" = ("FRM1", "2024-01") ∧
    (organize_file stC4 "240115FRM1JD.pdf").2 = some "./FRM1/2024-01/240115FRM1JD.pdf" ∧
    lookupFs (organize_file stC4 "240115FRM1JD.pdf").1.fs
      "./FRM1/2024-01/240115FRM1JD.pdf" = some "PDFDATA" :=
  c4_path_planner "240115FRM1JD.pdf" (by decide)

/-- C5: when a file already exists at the computed new name
`dirname(path)/<token>.pdf`, `rename_pdf` performs no filesystem change
(the returned filesystem is the input one, so both files are intact),
returns the original path unchanged, raises nothing (the result is
`Except.ok`), and emits the skip message. -/
theorem c5_rename_never_overwrites (env : Env) (m : Fs) (p c token : String)
    (msgs : List String)
    (hlook : lookupFs m p = some c)
    (hE : extractLoop (env.pagesOf c) = (some token, msgs))
    (htok : token ≠ "")
    (hexists : existsFs m (pyJoin (dirname p) (token ++ ".pdf")) = true) :
    rename_pdf env m p = Except.ok (m, p,
      msgs ++ ["File with name " ++ (token ++ ".pdf") ++ " already exists. Skipping."]) := by
  simp only [rename_pdf, extract_barcodes, hlook, hE]
  rw [if_neg htok]
  simp only [hexists, if_true]

/-- C5 (witness): the theorem where `inbox/240115FRM1JD.pdf` already
exists alongside the delivered `inbox/doc1.pdf`. -/
theorem c5_rename_never_overwrites_witness :
    rename_pdf envA fsC5 "inbox/doc1.pdf" = Except.ok (fsC5, "inbox/doc1.pdf",
      ["Found barcode 240115FRM1JD"] ++
        ["File with name " ++ ("240115FRM1JD" ++ ".pdf") ++ " already exists. Skipping."]) :=
  c5_rename_never_overwrites envA fsC5 "inbox/doc1.pdf" "CONTENT" "240115FRM1JD"
    ["Found barcode 240115FRM1JD"] (by decide) (by decide) (by decide) (by decide)

/-- C6 (counterexample): the extractor does not return "the first
non-empty decoded value": when page 0 decodes to the single empty payload
and page 1 decodes to `"X"`, it returns the empty string from page 0
instead of the non-empty `"X"`. -/
theorem c6_counterexample :
    (extractLoop [PageOut.pok [""], PageOut.pok ["X"]]).1 = some "" ∧
    (extractLoop [PageOut.pok [""], PageOut.pok ["X"]]).1 ≠ some "X" := by
  decide

/-- C6 (amended): the extractor scans pages in order and returns the
first decoded value of the first page whose decode yields at least one
barcode — a value that may itself be empty — without scanning subsequent
pages; a page that throws contributes a logged error message and is
skipped with extraction continuing; and it returns `none` when every page
is exhausted without such a page (captured by the `head?`-of-`filterMap`
characterisation, which yields `none` exactly in that case). -/
theorem c6_first_listed_barcode :
    (∀ pgs : List PageOut, (extractLoop pgs).1 = (pgs.filterMap pageFirst).head?) ∧
    (∀ (e : String) (rest : List PageOut),
      (extractLoop (PageOut.perr e :: rest)).1 = (extractLoop rest).1 ∧
      ("Error processing page: " ++ e) ∈ (extractLoop (PageOut.perr e :: rest)).2) := by
  constructor
  · intro pgs
    induction pgs with
    | nil => rfl
    | cons pg rest ih =>
      cases pg with
      | perr e => simp [extractLoop, pageFirst, ih]
      | pok bars =>
        cases bars with
        | nil => simp [extractLoop, pageFirst, ih]
        | cons b bs => simp [extractLoop, pageFirst]
  · intro e rest
    exact ⟨rfl, by simp [extractLoop]⟩

/-- C7: whenever `record` succeeds (digest computed, in-memory mapping
updated and persisted), reloading the ledger from the persisted storage
yields for that path exactly the digest just recorded. -/
theorem c7_record_roundtrip (env : Env) (st : St) (path : String) (st' : St) (h : String)
    (hrec : record env st path = some (st', h)) :
    lookupFs (load_hash_store st'.stored) path = some h := by
  unfold record at hrec
  cases hc : calculate_file_hash env st.fs path with
  | none => rw [hc] at hrec; simp at hrec
  | some h0 =>
    rw [hc] at hrec
    simp only [save_hash_store_step] at hrec
    by_cases hs : env.saveOk = true
    · rw [if_pos hs] at hrec
      simp only [Option.some.injEq, Prod.mk.injEq] at hrec
      obtain ⟨hst, hh⟩ := hrec
      subst hh
      rw [← hst]
      simp [load_hash_store, lookupFs_setFs_self]
    · rw [if_neg hs] at hrec
      simp at hrec

/-- C7 (witness): the theorem at the concrete recording of
`inbox/doc1.pdf`, whose digest `hCONTENT` survives the reload. -/
theorem c7_record_roundtrip_witness :
    lookupFs (load_hash_store stRec.stored) "inbox/doc1.pdf" = some "hCONTENT" :=
  c7_record_roundtrip envA stA "inbox/doc1.pdf" stRec "hCONTENT" (by decide)

/-- C8: the stabiliser terminates for every input (it is a total
function), performs at most `max_attempts` probe opens, returns true
exactly when some probe among the first `max_attempts` succeeds — and
when attempt `i` is the first success it stops right there after `i + 1`
opens — and returns false after exhausting `max_attempts` failed
attempts, having performed exactly `max_attempts` opens. -/
theorem c8_wait_stable (probe : Nat → Bool) (max_attempts : Nat) :
    (wait_for_file_stable probe max_attempts).2 ≤ max_attempts ∧
    ((wait_for_file_stable probe max_attempts).1 = true ↔
      ∃ i, i < max_attempts ∧ probe i = true) ∧
    (∀ i, i < max_attempts → probe i = true → (∀ j, j < i → probe j = false) →
      wait_for_file_stable probe max_attempts = (true, i + 1)) ∧
    ((∀ i, i < max_attempts → probe i = false) →
      wait_for_file_stable probe max_attempts = (false, max_attempts)) := by
  refine ⟨waitFrom_count_le probe max_attempts 0, ?_, ?_, ?_⟩
  · have := waitFrom_true_iff probe max_attempts 0
    simpa [wait_for_file_stable] using this
  · intro i hi hp hb
    have := waitFrom_first probe max_attempts 0 i hi (by simpa using hp)
      (by intro j hj; simpa using hb j hj)
    simpa [wait_for_file_stable] using this
  · intro hall
    have := waitFrom_allfail probe max_attempts 0 (by intro i hi; simpa using hall i hi)
    simpa [wait_for_file_stable] using this

/-- C8 (witness): for a probe that first succeeds on attempt 2 with 5
attempts allowed, the loop returns true after exactly 3 opens, within the
5-open bound. -/
theorem c8_wait_stable_witness :
    wait_for_file_stable (fun i => decide (i = 2)) 5 = (true, 3) ∧
    (wait_for_file_stable (fun i => decide (i = 2)) 5).2 ≤ 5 :=
  ⟨(c8_wait_stable (fun i => decide (i = 2)) 5).2.2.1 2 (by omega) (by decide) (by decide),
   (c8_wait_stable (fun i => decide (i = 2)) 5).1⟩

/-- C9 (counterexample): in monitor.py the handlers have no per-event
`try` boundary: when the hash store cannot be written, `on_created`
propagates the exception out of the handler (the result is
`Except.error`, with the in-memory mutation already applied), instead of
catching it and converting it to a log entry. -/
theorem c9_counterexample :
    monitor_on_created envBad stM evM =
      Except.error ("cannot write hash store",
        { fs := [("inbox/a.pdf", "x")], hashes := [("inbox/a.pdf", "hx")],
          stored := none, log := [], console := [], probes := 0 }) := by
  rfl

/-- C9 (amended): in komodo.py's `on_created`, every exception raised
inside the per-event `try` body (rename, hashing, organize, ledger
persistence, logging) is caught at the per-event boundary and converted
to a console message, the handler returning normally with the state the
body had reached — so no such error terminates the watch loop.  The
monitor.py handlers, however, have no such boundary (see the
counterexample). -/
theorem c9_per_event_catch (env : Env) (probe : Nat → Bool) (st : St) (ev : Event)
    (e : String) (st1 : St)
    (hdir : ev.is_directory = false)
    (hign : should_ignore ev.src_path = false)
    (hstable : (wait_for_file_stable probe 5).1 = true)
    (hpdf : strEnds (strLower ev.src_path) ".pdf" = true)
    (hbody : onCreatedBody env { st with probes := st.probes + (wait_for_file_stable probe 5).2 }
               ev.src_path = Except.error (e, st1)) :
    on_created env probe st ev =
      { st1 with console := st1.console ++
          ["Error processing file: " ++ ev.src_path ++ ": " ++ e] } := by
  simp only [on_created, hdir, hign, Bool.not_false, Bool.and_self, if_true]
  rw [hstable]
  simp only [Bool.true_eq_false, if_false]
  rw [hpdf]
  simp only [if_true, hbody]

/-- C9 (witness): the amended theorem at a creation event for `x.pdf`
when the file has vanished: the body raises on open, and the handler
converts the error to a console message. -/
theorem c9_per_event_catch_witness :
    on_created envA probeT stE evE =
      { fs := [], hashes := [], stored := none, log := [],
        console := ["Error processing file: " ++ "x.pdf" ++ ": " ++ "cannot open x.pdf"],
        probes := 1 } := by
  have h := c9_per_event_catch envA probeT stE evE "cannot open x.pdf"
    { fs := [], hashes := [], stored := none, log := [], console := [], probes := 1 }
    (by decide) (by decide) (by decide) (by decide) (by rfl)
  exact h

/-- C10: for a creation event whose path is neither an ignored `.tmp`
path nor (case-insensitively) a `.pdf`, the handler attempts
stabilisation (at least one probe open is performed) but performs no
rename, no move, no ledger mutation, no ledger persistence and writes no
log entry: the filesystem, the in-memory hash mapping, the persisted
ledger file and the event log are all left unchanged. -/
theorem c10_nonpdf_frame (env : Env) (probe : Nat → Bool) (st : St) (ev : Event)
    (hdir : ev.is_directory = false)
    (hign : should_ignore ev.src_path = false)
    (hpdf : strEnds (strLower ev.src_path) ".pdf" = false) :
    (on_created env probe st ev).fs = st.fs ∧
    (on_created env probe st ev).hashes = st.hashes ∧
    (on_created env probe st ev).stored = st.stored ∧
    (on_created env probe st ev).log = st.log ∧
    (on_created env probe st ev).probes = st.probes + (wait_for_file_stable probe 5).2 ∧
    1 ≤ (wait_for_file_stable probe 5).2 := by
  simp only [on_created, hdir, hign, Bool.not_false, Bool.and_self, if_true]
  by_cases hw : (wait_for_file_stable probe 5).1 = false
  · rw [if_pos hw]
    refine ⟨?_, ?_, ?_, ?_, ?_, wait_count_pos probe 5 (by omega)⟩ <;> simp
  · rw [if_neg hw]
    rw [hpdf]
    simp only [Bool.false_eq_true, if_false]
    refine ⟨?_, ?_, ?_, ?_, ?_, wait_count_pos probe 5 (by omega)⟩ <;> simp

/-- C10 (witness): the theorem at the non-PDF creation event for
`inbox/notes.txt`. -/
theorem c10_nonpdf_frame_witness :
    (on_created envA probeT stA evTxt).fs = stA.fs ∧
    (on_created envA probeT stA evTxt).hashes = stA.hashes ∧
    (on_created envA probeT stA evTxt).stored = stA.stored ∧
    (on_created envA probeT stA evTxt).log = stA.log ∧
    (on_created envA probeT stA evTxt).probes =
      stA.probes + (wait_for_file_stable probeT 5).2 ∧
    1 ≤ (wait_for_file_stable probeT 5).2 :=
  c10_nonpdf_frame envA probeT stA evTxt (by decide) (by decide) (by decide)
